import Mathlib

/-!
Shallow embedding of the pyMOR parameter-functional subsystem
(`src/pymor/parameters/functionals.py`) and of the matrix loader
(`src/pymor/tools/io.py`), together with theorems settling the frozen
claims about the natural-language specification.

The repository runs on Python 3 (the CI template pins Python 3.7 to 3.9),
so Python 3 semantics are used where the two languages differ; in
particular comparing an `int` with a `tuple` raises `TypeError`.

Code that the claims depend on but that is not part of the two source
files (the `ParameterFunctionalInterface` base class with
`build_parameter_type` and `parse_parameter`) is modelled from the
specification; those definitions carry a doc comment starting with
`Modelled from the spec:`.
-/

namespace Pymor

/-- Python exceptions that the embedded fragment can raise.  `outOfFuel` is an
artifact of the embedding's bounded recursion and is unreachable at the fuel
the entry points supply. -/
inductive PyErr where
  | typeError
  | assertionError
  | nameError (n : String)
  | indexError
  | keyError (k : String)
  | attributeError (a : String)
  | compileError
  | typeMismatch (param : String)
  | ioError (msg : String)
  | outOfFuel
deriving DecidableEq, Repr

/-- Python values flowing through the embedded fragment: numbers, numeric
arrays, the function objects stored in `ExpressionParameterFunctional.functions`,
builtin function objects, the `__builtins__` entry that `eval` injects, the
dictionary reference returned by `globals()`, the bound method
`globals().clear`, the (uninterpreted) result of applying a whitelisted
numeric function, and `None`. -/
inductive Value where
  | int (n : Int)
  | arr (xs : List Value)
  | npFunc (f : String)
  | builtinFunc (f : String)
  | builtinsModule
  | globalsRef
  | boundClear
  | npApp (f : String) (args : List Value)
  | pyNone

/-- A parameter shape: a tuple of non-negative integers (empty tuple for a
scalar). -/
abbrev Shape := List Nat

/-- A shape as accepted at the API boundary: either a bare number or a tuple
(`functionals.py`, lines 33-34 normalize the former). -/
inductive ShapeArg where
  | num (n : Nat)
  | tup (t : List Nat)
deriving DecidableEq, Repr

/-- Shape normalization from `ProjectionParameterFunctional.__init__`
(lines 33-34): a bare number `N` becomes `()` if `N == 0` else `(N,)`;
a tuple is kept as is. -/
def normalizeShape : ShapeArg → Shape
  | .num 0 => []
  | .num (n + 1) => [n + 1]
  | .tup t => t

/-- A parameter type: an ordered mapping from parameter name to shape. -/
abbrev ParameterType := List (String × Shape)

/-- Normalization of a parameter-type declaration, applied by
`build_parameter_type` on every functional constructor. -/
def normalizeParameterType (pt : List (String × ShapeArg)) : ParameterType :=
  pt.map (fun p => (p.1, normalizeShape p.2))

/-- A parameter value: a mapping from parameter name to a value. -/
abbrev ParameterValue := List (String × Value)

/-- Whether a value conforms to a declared shape: a number for shape `()`,
an array of `n` values each conforming to `rest` for shape `n :: rest`. -/
def conformsShape : Shape → Value → Bool
  | [], v => match v with | .int _ => true | _ => false
  | n :: rest, v =>
      match v with
      | .arr xs => xs.length == n && xs.all (conformsShape rest)
      | _ => false

/-- Modelled from the spec: `parse_parameter` of the (missing)
`ParameterFunctionalInterface` base class, section 4.1 of the spec.  Given a
raw parameter value it returns a fully validated value conforming to the
declared type, or fails with a TypeMismatch error naming the offending
parameter.  `None` is accepted only when the declared type has at most one
entry of shape `()`, in which case it is treated as "no parameter needed".
A conforming value is returned unchanged. -/
def parseParameter (pt : ParameterType) (mu : Option ParameterValue) :
    Except PyErr ParameterValue :=
  match mu with
  | Option.none =>
      if pt.length ≤ 1 && pt.all (fun p => p.2.isEmpty) then .ok []
      else .error (.typeMismatch "")
  | some m =>
      match pt.find? (fun p =>
          !(match m.lookup p.1 with
            | some v => conformsShape p.2 v
            | Option.none => false)) with
      | some p => .error (.typeMismatch p.1)
      | Option.none => .ok m

/-- Python sequence indexing `xs[i]` with negative-index wrap-around:
`IndexError` when out of range, `TypeError` when the value is not a
sequence. -/
def pyGetItem (v : Value) (i : Int) : Except PyErr Value :=
  match v with
  | .arr xs =>
      let n : Int := xs.length
      if 0 ≤ i ∧ i < n then
        match xs.get? i.toNat with
        | some x => .ok x
        | Option.none => .error .indexError
      else if -n ≤ i ∧ i < 0 then
        match xs.get? (n + i).toNat with
        | some x => .ok x
        | Option.none => .error .indexError
      else .error .indexError
  | _ => .error .typeError

/-- `ProjectionParameterFunctional` (functionals.py, lines 14-47): state after
a successful construction. -/
structure ProjectionParameterFunctional where
  name : Option String
  parameter_type : ParameterType
  parameter_name : String
  coordinates : Option Int
deriving DecidableEq, Repr

namespace ProjectionParameterFunctional

/-- `ProjectionParameterFunctional.__init__` (lines 30-40).  The shape is
normalized, the parameter type `{parameter_name: parameter_shape}` is built,
and if `sum(parameter_shape) > 1` the code asserts
`coordinates is not None and coordinates < parameter_shape`.  When
`coordinates` is an integer, `coordinates < parameter_shape` compares an
`int` with a `tuple`, which raises `TypeError` on Python 3; when
`coordinates` is `None` the conjunction is false and `AssertionError` is
raised. -/
def init (parameter_name : String) (parameter_shape : ShapeArg)
    (coordinates : Option Int) (name : Option String) :
    Except PyErr ProjectionParameterFunctional :=
  if (normalizeShape parameter_shape).sum > 1 then
    match coordinates with
    | Option.none => .error .assertionError
    | some _ => .error .typeError
  else
    .ok { name := name
          parameter_type := [(parameter_name, normalizeShape parameter_shape)]
          parameter_name := parameter_name
          coordinates := coordinates }

/-- `ProjectionParameterFunctional.evaluate` (lines 42-47): parse the
parameter, then return `mu[parameter_name]` if `coordinates` is `None`,
else `mu[parameter_name][coordinates]`. -/
def evaluate (f : ProjectionParameterFunctional) (mu : Option ParameterValue) :
    Except PyErr Value :=
  match parseParameter f.parameter_type mu with
  | .error e => .error e
  | .ok m =>
      match m.lookup f.parameter_name with
      | Option.none => .error (.keyError f.parameter_name)
      | some v =>
          match f.coordinates with
          | Option.none => .ok v
          | some c => pyGetItem v c

end ProjectionParameterFunctional

/-- `GenericParameterFunctional` (functionals.py, lines 50-72): a wrapper
making an arbitrary python function a `ParameterFunctional`.  The wrapped
mapping is an opaque callable that may itself fail. -/
structure GenericParameterFunctional where
  name : Option String
  parameter_type : ParameterType
  mapping : ParameterValue → Except PyErr Value

namespace GenericParameterFunctional

/-- `GenericParameterFunctional.__init__` (lines 63-68): store the mapping
and build the (normalized) parameter type. -/
def init (mapping : ParameterValue → Except PyErr Value)
    (parameter_type : List (String × ShapeArg)) (name : Option String) :
    GenericParameterFunctional :=
  { name := name
    parameter_type := normalizeParameterType parameter_type
    mapping := mapping }

/-- `GenericParameterFunctional.evaluate` (lines 70-72):
`mu = self.parse_parameter(mu); return self._mapping(mu)`. -/
def evaluate (f : GenericParameterFunctional) (mu : Option ParameterValue) :
    Except PyErr Value :=
  match parseParameter f.parameter_type mu with
  | .error e => .error e
  | .ok m => f.mapping m

end GenericParameterFunctional

/-! ### The expression language

`ExpressionParameterFunctional` compiles its expression string with Python's
`compile(expression, ..., 'eval')` and evaluates it with
`eval(code, self.functions, mu)`.  The fragment of Python expressions
embedded here covers integer literals, names, `+`, `-`, `*`, unary minus,
calls, and attribute access; this is the fragment the claims exercise
(float literals, strings, comprehensions, etc. are outside it). -/

/-- Tokens of the embedded Python expression fragment. -/
inductive Tok where
  | intTok (n : Nat)
  | ident (s : String)
  | lparen
  | rparen
  | comma
  | dot
  | plus
  | minus
  | star
deriving DecidableEq, Repr

/-- Characters allowed inside an identifier. -/
def isIdentChar (c : Char) : Bool := c.isAlpha || c.isDigit || c == '_'

/-- Read a maximal run of identifier characters. -/
def readIdent : List Char → List Char × List Char
  | [] => ([], [])
  | c :: cs =>
      if isIdentChar c then
        let p := readIdent cs
        (c :: p.1, p.2)
      else ([], c :: cs)

/-- Read a maximal run of digits. -/
def readDigits : List Char → List Char × List Char
  | [] => ([], [])
  | c :: cs =>
      if c.isDigit then
        let p := readDigits cs
        (c :: p.1, p.2)
      else ([], c :: cs)

/-- Numeric value of a digit run. -/
def digitsToNat (ds : List Char) : Nat :=
  ds.foldl (fun acc c => 10 * acc + (c.toNat - 48)) 0

/-- Tokenizer for the expression fragment.  The fuel argument is an artifact
of the embedding; `fuel = length of the input + 1` always suffices since
every step consumes at least one character.  A character outside the
fragment is a syntax error, as in Python's tokenizer. -/
def tokenizeAux : Nat → List Char → Except PyErr (List Tok)
  | 0, _ => .error .outOfFuel
  | _ + 1, [] => .ok []
  | fuel + 1, c :: cs =>
      if c == ' ' then tokenizeAux fuel cs
      else if c.isDigit then
        let p := readDigits cs
        match tokenizeAux fuel p.2 with
        | .error e => .error e
        | .ok ts => .ok (.intTok (digitsToNat (c :: p.1)) :: ts)
      else if c.isAlpha || c == '_' then
        let p := readIdent cs
        match tokenizeAux fuel p.2 with
        | .error e => .error e
        | .ok ts => .ok (.ident (String.mk (c :: p.1)) :: ts)
      else if c == '(' then (tokenizeAux fuel cs).map (Tok.lparen :: ·)
      else if c == ')' then (tokenizeAux fuel cs).map (Tok.rparen :: ·)
      else if c == ',' then (tokenizeAux fuel cs).map (Tok.comma :: ·)
      else if c == '.' then (tokenizeAux fuel cs).map (Tok.dot :: ·)
      else if c == '+' then (tokenizeAux fuel cs).map (Tok.plus :: ·)
      else if c == '-' then (tokenizeAux fuel cs).map (Tok.minus :: ·)
      else if c == '*' then (tokenizeAux fuel cs).map (Tok.star :: ·)
      else .error .compileError

/-- Tokenize an expression string. -/
def tokenize (s : String) : Except PyErr (List Tok) :=
  tokenizeAux (s.length + 1) s.toList

/-- Binary operators of the fragment. -/
inductive BOp where
  | add
  | sub
  | mul
deriving DecidableEq, Repr

mutual

/-- Abstract syntax of the embedded Python expression fragment, mirroring the
corresponding nodes of Python's `ast` module (`Constant`, `Name`, `BinOp`,
`UnaryOp(USub)`, `Call`, `Attribute`).  Call argument lists are a mutual
inductive so that evaluation is structurally recursive. -/
inductive Expr where
  | intLit (n : Nat)
  | name (s : String)
  | binop (op : BOp) (a b : Expr)
  | neg (e : Expr)
  | call (f : Expr) (args : ExprList)
  | attr (e : Expr) (a : String)
deriving DecidableEq, Repr

/-- A list of call arguments. -/
inductive ExprList where
  | nil
  | cons (head : Expr) (tail : ExprList)
deriving DecidableEq, Repr

end

/-- Convert a plain list of expressions into an argument list. -/
def ExprList.ofList : List Expr → ExprList
  | [] => .nil
  | e :: es => .cons e (ExprList.ofList es)

/-- Parser states: `addE`/`mulE`/`unaryE`/`postE`/`atomE` parse an expression
at the given precedence level; `addL`/`mulL`/`postL` consume the left-
associative operator chains with the accumulated left operand; `argsE`
parses a non-empty call argument list. -/
inductive PMode where
  | addE
  | addL (acc : Expr)
  | mulE
  | mulL (acc : Expr)
  | unaryE
  | postE
  | postL (acc : Expr)
  | atomE
  | argsE (f : Expr) (acc : List Expr)

/-- Recursive-descent parser for the expression fragment, written as a single
function over a fuel bound so that it is structurally recursive (the fuel the
entry point supplies always suffices).  Operator chains associate to the
left, as in Python. -/
def parseStep : Nat → PMode → List Tok → Except PyErr (Expr × List Tok)
  | 0, _, _ => .error .outOfFuel
  | fuel + 1, .addE, ts =>
      match parseStep fuel .mulE ts with
      | .error e => .error e
      | .ok (e, r) => parseStep fuel (.addL e) r
  | fuel + 1, .addL acc, .plus :: ts =>
      match parseStep fuel .mulE ts with
      | .error e => .error e
      | .ok (e, r) => parseStep fuel (.addL (.binop .add acc e)) r
  | fuel + 1, .addL acc, .minus :: ts =>
      match parseStep fuel .mulE ts with
      | .error e => .error e
      | .ok (e, r) => parseStep fuel (.addL (.binop .sub acc e)) r
  | _ + 1, .addL acc, ts => .ok (acc, ts)
  | fuel + 1, .mulE, ts =>
      match parseStep fuel .unaryE ts with
      | .error e => .error e
      | .ok (e, r) => parseStep fuel (.mulL e) r
  | fuel + 1, .mulL acc, .star :: ts =>
      match parseStep fuel .unaryE ts with
      | .error e => .error e
      | .ok (e, r) => parseStep fuel (.mulL (.binop .mul acc e)) r
  | _ + 1, .mulL acc, ts => .ok (acc, ts)
  | fuel + 1, .unaryE, .minus :: ts =>
      match parseStep fuel .unaryE ts with
      | .error e => .error e
      | .ok (e, r) => .ok (.neg e, r)
  | fuel + 1, .unaryE, ts => parseStep fuel .postE ts
  | fuel + 1, .postE, ts =>
      match parseStep fuel .atomE ts with
      | .error e => .error e
      | .ok (a, r) => parseStep fuel (.postL a) r
  | fuel + 1, .postL acc, .dot :: .ident s :: ts =>
      parseStep fuel (.postL (.attr acc s)) ts
  | _ + 1, .postL _, .dot :: _ => .error .compileError
  | fuel + 1, .postL acc, .lparen :: .rparen :: ts =>
      parseStep fuel (.postL (.call acc .nil)) ts
  | fuel + 1, .postL acc, .lparen :: ts => parseStep fuel (.argsE acc []) ts
  | _ + 1, .postL acc, ts => .ok (acc, ts)
  | fuel + 1, .argsE f args, ts =>
      match parseStep fuel .addE ts with
      | .error e => .error e
      | .ok (e, r) =>
          match r with
          | .comma :: r' => parseStep fuel (.argsE f (args ++ [e])) r'
          | .rparen :: r' =>
              parseStep fuel (.postL (.call f (ExprList.ofList (args ++ [e])))) r'
          | _ => .error .compileError
  | _ + 1, .atomE, .intTok n :: ts => .ok (.intLit n, ts)
  | _ + 1, .atomE, .ident s :: ts => .ok (.name s, ts)
  | fuel + 1, .atomE, .lparen :: ts =>
      match parseStep fuel .addE ts with
      | .error e => .error e
      | .ok (e, r) =>
          match r with
          | .rparen :: r' => .ok (e, r')
          | _ => .error .compileError
  | _ + 1, .atomE, _ => .error .compileError

/-- `compile(expression, '<dune expression>', 'eval')` (functionals.py,
line 85): tokenize and parse the whole string, failing with a syntax error
when the string is not a valid expression of the fragment. -/
def pyCompile (expression : String) : Except PyErr Expr :=
  match tokenize expression with
  | .error e => .error e
  | .ok ts =>
      match parseStep (8 * ts.length + 8) .addE ts with
      | .error e => .error e
      | .ok (e, []) => .ok e
      | .ok (_, _ :: _) => .error .compileError

/-! ### Evaluation of compiled expressions

`eval(code, self.functions, mu)` evaluates the compiled expression with the
class-level dict `functions` as globals and the validated parameter `mu` as
locals.  Per the documented behavior of CPython's `eval`, when the globals
mapping does not contain the key `"__builtins__"`, a reference to the
builtins module is inserted under that key before evaluation, making every
builtin reachable from the expression. -/

/-- A namespace (a Python dict from names to values). -/
abbrev NS := List (String × Value)

/-- `ExpressionParameterFunctional.functions` (functionals.py, lines 77-81):
the class-level dict of whitelisted numpy functions.  Being a class
attribute, a single dict is shared by every instance. -/
def functions : NS :=
  [("sin", .npFunc "sin"), ("cos", .npFunc "cos"), ("tan", .npFunc "tan"),
   ("arcsin", .npFunc "arcsin"), ("arccos", .npFunc "arccos"),
   ("arctan", .npFunc "arctan"), ("sinh", .npFunc "sinh"),
   ("cosh", .npFunc "cosh"), ("tanh", .npFunc "tanh"),
   ("arcsinh", .npFunc "arcsinh"), ("arccosh", .npFunc "arccosh"),
   ("arctanh", .npFunc "arctanh"), ("exp", .npFunc "exp"),
   ("exp2", .npFunc "exp2"), ("log", .npFunc "log"),
   ("log2", .npFunc "log2"), ("log10", .npFunc "log10"),
   ("min", .npFunc "min"), ("minimum", .npFunc "minimum"),
   ("max", .npFunc "max"), ("maximum", .npFunc "maximum")]

/-- A fragment of Python's builtins module, large enough to witness what is
reachable through the `__builtins__` entry that `eval` injects. -/
def builtinsFrag (n : String) : Option Value :=
  if n == "abs" then some (.builtinFunc "abs")
  else if n == "globals" then some (.builtinFunc "globals")
  else Option.none

/-- Name resolution inside `eval`: locals first, then globals, then — when
the globals dict carries a `"__builtins__"` entry — the builtins module. -/
def lookupName (locals : NS) (globals : NS) (n : String) : Option Value :=
  match locals.lookup n with
  | some v => some v
  | Option.none =>
      match globals.lookup n with
      | some v => some v
      | Option.none =>
          match globals.lookup "__builtins__" with
          | some _ => builtinsFrag n
          | Option.none => Option.none

/-- Binary arithmetic on the fragment's values (integers only; the claims
never exercise numpy array arithmetic). -/
def applyBinop : BOp → Value → Value → Except PyErr Value
  | .add, .int a, .int b => .ok (.int (a + b))
  | .sub, .int a, .int b => .ok (.int (a - b))
  | .mul, .int a, .int b => .ok (.int (a * b))
  | _, _, _ => .error .typeError

/-- Attribute access on the fragment's values.  `globals().clear` resolves to
the bound `dict.clear` method of the globals dict; other attributes of the
fragment's values raise `AttributeError`. -/
def getAttrV : Value → String → Except PyErr Value
  | .globalsRef, "clear" => .ok .boundClear
  | _, a => .error (.attributeError a)

/-- Calling one of the fragment's values.  Whitelisted numpy functions are
uninterpreted (their numeric behavior is irrelevant to the claims); `abs`
computes the absolute value; `globals()` returns a reference to the globals
dict of the running `eval`; `globals().clear()` empties that dict (the
result of `dict.clear` is `None`); anything else is not callable. -/
def applyCallable : Value → List Value → NS → Except PyErr (Value × NS)
  | .npFunc f, args, g => .ok (.npApp f args, g)
  | .builtinFunc "abs", [.int n], g => .ok (.int (Int.natAbs n : Nat), g)
  | .builtinFunc "globals", [], g => .ok (.globalsRef, g)
  | .boundClear, [], _ => .ok (.pyNone, [])
  | _, _, _ => .error .typeError

mutual

/-- Evaluation of a compiled expression with locals `L`, threading the
globals dict `g` (which expressions can mutate through `globals()`).
Sub-expressions are evaluated left to right, as in Python. -/
def evalExpr : Expr → NS → NS → Except PyErr (Value × NS)
  | .intLit n, _, g => .ok (.int n, g)
  | .name n, L, g =>
      match lookupName L g n with
      | some v => .ok (v, g)
      | Option.none => .error (.nameError n)
  | .neg e, L, g =>
      match evalExpr e L g with
      | .error err => .error err
      | .ok (.int n, g') => .ok (.int (-n), g')
      | .ok _ => .error .typeError
  | .binop op a b, L, g =>
      match evalExpr a L g with
      | .error err => .error err
      | .ok (va, g1) =>
          match evalExpr b L g1 with
          | .error err => .error err
          | .ok (vb, g2) =>
              match applyBinop op va vb with
              | .error err => .error err
              | .ok v => .ok (v, g2)
  | .attr e a, L, g =>
      match evalExpr e L g with
      | .error err => .error err
      | .ok (v, g1) =>
          match getAttrV v a with
          | .error err => .error err
          | .ok w => .ok (w, g1)
  | .call f args, L, g =>
      match evalExpr f L g with
      | .error err => .error err
      | .ok (vf, g1) =>
          match evalArgs args L g1 with
          | .error err => .error err
          | .ok (vs, g2) => applyCallable vf vs g2

/-- Evaluation of a call's argument list, left to right. -/
def evalArgs : ExprList → NS → NS → Except PyErr (List Value × NS)
  | .nil, _, g => .ok ([], g)
  | .cons a rest, L, g =>
      match evalExpr a L g with
      | .error err => .error err
      | .ok (v, g1) =>
          match evalArgs rest L g1 with
          | .error err => .error err
          | .ok (vs, g2) => .ok (v :: vs, g2)

end

/-- The `__builtins__` insertion CPython's `eval` performs on a globals dict
that lacks the key. -/
def injectBuiltins (g : NS) : NS :=
  match g.lookup "__builtins__" with
  | some _ => g
  | Option.none => g ++ [("__builtins__", Value.builtinsModule)]

/-- `eval(code, globals, locals)` on a compiled expression of the fragment:
inject `__builtins__` if missing, then evaluate.  Returns the value together
with the (possibly mutated) globals dict. -/
def pyEval (code : Expr) (globals : NS) (locals : NS) :
    Except PyErr (Value × NS) :=
  evalExpr code locals (injectBuiltins globals)

/-- `ExpressionParameterFunctional` (functionals.py, lines 75-96): state
after a successful construction.  The compiled rule (`code`) is derived from
the expression string; the class-level `functions` dict is NOT part of the
instance — its current contents are passed to `evaluate` explicitly, which
makes the sharing of that single dict between instances visible in the
embedding. -/
structure ExpressionParameterFunctional where
  expression : String
  code : Expr
  parameter_type : ParameterType
  name : Option String
deriving DecidableEq, Repr

namespace ExpressionParameterFunctional

/-- `ExpressionParameterFunctional.__init__` (lines 83-87): store the
expression, compile it (a syntax error propagates, so construction fails
immediately), and run the `GenericParameterFunctional` constructor, which
builds the normalized parameter type. -/
def init (expression : String) (parameter_type : List (String × ShapeArg))
    (name : Option String) : Except PyErr ExpressionParameterFunctional :=
  match pyCompile expression with
  | .error e => .error e
  | .ok code =>
      .ok { expression := expression
            code := code
            parameter_type := normalizeParameterType parameter_type
            name := name }

/-- `evaluate` as inherited from `GenericParameterFunctional` (lines 70-72)
with the mapping `lambda mu: eval(code, self.functions, mu)` (line 86):
parse the parameter, then evaluate the compiled expression with the current
contents `fns` of the shared class-level `functions` dict as globals and the
validated parameter as locals.  The returned namespace is the state of that
shared dict after the call. -/
def evaluate (f : ExpressionParameterFunctional) (mu : Option ParameterValue)
    (fns : NS) : Except PyErr (Value × NS) :=
  match parseParameter f.parameter_type mu with
  | .error e => .error e
  | .ok m => pyEval f.code fns m

/-- `__getstate__` (lines 92-93): the persisted state is exactly
`(self.expression, self.parameter_type, self.name)`. -/
def getstate (f : ExpressionParameterFunctional) :
    String × ParameterType × Option String :=
  (f.expression, f.parameter_type, f.name)

/-- `__setstate__` (lines 95-96): `self.__init__(*state)` — restoring
re-runs the full constructor on the persisted tuple (the stored parameter
type is already in tuple form, hence the `ShapeArg.tup` wrapping). -/
def setstate (state : String × ParameterType × Option String) :
    Except PyErr ExpressionParameterFunctional :=
  init state.1 (state.2.1.map (fun p => (p.1, ShapeArg.tup p.2))) state.2.2

end ExpressionParameterFunctional

/-! ### The matrix loader (`src/pymor/tools/io.py`)

The loaders are embedded over an abstract file system mapping paths to file
contents; matrix objects themselves are uninterpreted (only their identity
and their dense/sparse kind matter to the loaders). -/

/-- An in-memory matrix object as returned by scipy/numpy readers; the
contents are abstracted to an identifier. -/
inductive MatrixData where
  | dense (id : Nat)
  | sparseCoo (id : Nat)
  | sparseCsc (id : Nat)
deriving DecidableEq, Repr

/-- `scipy.sparse.issparse`. -/
def issparse : MatrixData → Bool
  | .dense _ => false
  | .sparseCoo _ => true
  | .sparseCsc _ => true

/-- `matrix.tocsc()` on a sparse matrix. -/
def tocsc : MatrixData → MatrixData
  | .dense n => .dense n
  | .sparseCoo n => .sparseCsc n
  | .sparseCsc n => .sparseCsc n

/-- Contents of a file on disk, as seen by the scipy/numpy readers: a
readable MATLAB file (named entries), a readable Matrix Market file, an NPZ
archive (named entries), a plain NPY array, a readable text matrix, or a
file the given reader cannot parse. -/
inductive FileData where
  | matFile (entries : List (String × MatrixData))
  | mtxFile (m : MatrixData)
  | npzFile (entries : List (String × MatrixData))
  | npyFile (m : MatrixData)
  | txtFile (m : MatrixData)
  | unreadable

/-- An abstract file system. -/
abbrev FS := String → Option FileData

/-- Python truthiness of the `key` argument: `None` and the empty string are
falsy, every other string is truthy. -/
def keyTruthy : Option String → Bool
  | Option.none => false
  | some s => !s.isEmpty

/-- `_loadmat` (io.py, lines 19-39): read the MATLAB file (wrapping reader
failures in `IOError`); with a truthy key return that entry or fail; else
require exactly one matrix object. -/
def loadmatFn (fs : FS) (path : String) (key : Option String) :
    Except PyErr MatrixData :=
  match fs path with
  | some (.matFile entries) =>
      if keyTruthy key then
        match key with
        | some k =>
            match entries.lookup k with
            | some m => .ok m
            | Option.none =>
                .error (.ioError (k ++ " not found in MATLAB file " ++ path))
        | Option.none => .error (.ioError "unreachable")
      else if entries.length == 0 then
        .error (.ioError ("No matrix data contained in MATLAB file " ++ path))
      else if entries.length > 1 then
        .error (.ioError ("More than one matrix object stored in MATLAB file "
          ++ path))
      else
        match entries.head? with
        | some p => .ok p.2
        | Option.none => .error (.ioError "unreachable")
  | _ => .error (.ioError ("could not read MATLAB file " ++ path))

/-- `_mmread` (io.py, lines 42-52): a truthy key is rejected outright; then
the Matrix Market file is read (failures wrapped in `IOError`) and a sparse
result is converted with `tocsc`. -/
def mmreadFn (fs : FS) (path : String) (key : Option String) :
    Except PyErr MatrixData :=
  if keyTruthy key then
    .error (.ioError "Cannot specify key for Matrix Market file")
  else
    match fs path with
    | some (.mtxFile m) => .ok (if issparse m then tocsc m else m)
    | _ => .error (.ioError ("could not read Matrix Market file " ++ path))

/-- `_load` (io.py, lines 55-73): `np.load`, then for an NPZ archive either
the entry under a truthy key (else a descriptive `IOError`), or — without a
truthy key — the single stored object, failing on zero or several; a plain
NPY array is returned directly.  (The final `isinstance` matrix check never
fires in the fragment because NPZ/NPY contents are always arrays.) -/
def loadFn (fs : FS) (path : String) (key : Option String) :
    Except PyErr MatrixData :=
  match fs path with
  | some (.npzFile entries) =>
      if keyTruthy key then
        match key with
        | some k =>
            match entries.lookup k with
            | some m => .ok m
            | Option.none =>
                .error (.ioError (k ++ " not found in NPY file " ++ path))
        | Option.none => .error (.ioError "unreachable")
      else if entries.length == 0 then
        .error (.ioError ("No data contained in NPY file " ++ path))
      else if entries.length > 1 then
        .error (.ioError ("More than one object stored in NPY file " ++ path))
      else
        match entries.head? with
        | some p => .ok p.2
        | Option.none => .error (.ioError "unreachable")
  | some (.npyFile m) => .ok m
  | _ => .error (.ioError ("np.load failed for " ++ path))

/-- `_loadtxt` (io.py, lines 76-82): a truthy key is rejected outright; then
`np.loadtxt` (failures wrapped in `IOError`). -/
def loadtxtFn (fs : FS) (path : String) (key : Option String) :
    Except PyErr MatrixData :=
  if keyTruthy key then .error (.ioError "Cannot specify key for TXT file")
  else
    match fs path with
    | some (.txtFile m) => .ok m
    | _ => .error (.ioError ("could not read TXT file " ++ path))

/-- Split a character list at every occurrence of the separator (the
separators are dropped; `n` separators yield `n + 1` pieces). -/
def splitOnChar (sep : Char) : List Char → List (List Char)
  | [] => [[]]
  | c :: cs =>
      let rest := splitOnChar sep cs
      if c == sep then [] :: rest
      else
        match rest with
        | [] => [[c]]
        | piece :: others => (c :: piece) :: others

/-- Lower-case a string character by character. -/
def lowerStr (s : String) : String := String.mk (s.toList.map Char.toLower)

/-- The final path component (`Path(path).name`). -/
def pathName (path : String) : List Char :=
  (splitOnChar '/' path.toList).getLastD path.toList

/-- `pathlib.Path(path).suffixes`, as implemented in CPython: an empty list
when the name ends with a dot; otherwise strip leading dots and return the
dot-prefixed components after the first. -/
def suffixes (path : String) : List String :=
  let name := pathName path
  if name.getLast? == some '.' then []
  else
    let core := name.dropWhile (fun c => c == '.')
    ((splitOnChar '.' core).drop 1).map (fun s => String.mk ('.' :: s))

/-- `'.'.join(strings)`. -/
def joinDots : List String → String
  | [] => ""
  | [s] => s
  | s :: rest => s ++ "." ++ joinDots rest

/-- The extension detection of `load_matrix` (io.py, lines 92-98).  When
there are no suffixes at all, the `elif` of line 95 evaluates
`path.suffixes[-1]`, which raises `IndexError`; this is embedded faithfully.
Note also the gzip branch: `'.'.join(path.suffixes[-2:])` inserts a dot
between two components that already carry theirs, producing for example
`.mtz..gz`. -/
def detectExtension (path : String) : Except PyErr (Option String) :=
  let sfx := suffixes path
  match sfx.getLast? with
  | Option.none => .error .indexError
  | some last =>
      if last.length == 4 then .ok (some (lowerStr last))
      else if lowerStr last == ".gz" && decide (sfx.length ≥ 2)
          && ((sfx.drop (sfx.length - 2)).headD "").length == 4 then
        .ok (some (lowerStr (joinDots (sfx.drop (sfx.length - 2)))))
      else .ok Option.none

/-- `load_matrix` (io.py, lines 85-121): detect the extension and dispatch
through `file_format_map`; with an unrecognized extension try
`_loadmat, _mmread, _loadtxt, _load` in order, swallowing only `IOError`
and moving on, and fail with a descriptive `IOError` when every loader
fails. -/
def load_matrix (fs : FS) (path : String) (key : Option String) :
    Except PyErr MatrixData :=
  match detectExtension path with
  | .error e => .error e
  | .ok ext =>
      if ext == some ".mat" then loadmatFn fs path key
      else if ext == some ".mtx" then mmreadFn fs path key
      else if ext == some ".mtz.gz" then mmreadFn fs path key
      else if ext == some ".npy" then loadFn fs path key
      else if ext == some ".npz" then loadFn fs path key
      else if ext == some ".txt" then loadtxtFn fs path key
      else
        match loadmatFn fs path key with
        | .ok m => .ok m
        | .error (.ioError _) =>
            match mmreadFn fs path key with
            | .ok m => .ok m
            | .error (.ioError _) =>
                match loadtxtFn fs path key with
                | .ok m => .ok m
                | .error (.ioError _) =>
                    match loadFn fs path key with
                    | .ok m => .ok m
                    | .error (.ioError _) =>
                        .error (.ioError ("Could not load file " ++ path))
                    | .error e => .error e
                | .error e => .error e
            | .error e => .error e
        | .error e => .error e

/-- A small file system for the loader claims: a readable Matrix Market
file, an NPZ archive with the single entry `A`, and a text matrix. -/
def fsC10 : FS := fun p =>
  if p == "m.mtx" then some (.mtxFile (.dense 0))
  else if p == "m.npz" then some (.npzFile [("A", .dense 1)])
  else if p == "m.txt" then some (.txtFile (.dense 2))
  else Option.none

/-! ### Helper lemmas -/

/-- Unwrapping a shape that was wrapped into a `ShapeArg` tuple is the
identity, so re-normalizing an already normalized parameter type changes
nothing. -/
theorem normalizeParameterType_tup (pt : ParameterType) :
    normalizeParameterType (pt.map (fun p => (p.1, ShapeArg.tup p.2))) = pt := by
  induction pt with
  | nil => rfl
  | cons p rest ih => simpa [normalizeParameterType, normalizeShape] using ih

/-- A successful `parse_parameter` returns the given parameter value
unchanged (the validating shell performs no copy and no rewrite). -/
theorem parseParameter_ok_id (pt : ParameterType) (m m' : ParameterValue)
    (h : parseParameter pt (some m) = .ok m') : m' = m := by
  simp only [parseParameter] at h
  split at h
  · simp at h
  · injection h with h'
    exact h'.symm

/-! ### Claim theorems -/

/-- Claim C3 — code bug.  The spec (and the docstring of
`ProjectionParameterFunctional`) intend `coordinates` to be an index that is
range-checked against the extent of the shape, and the claim states that
construction with shape `(3,)` and `coordinates=1` succeeds.  The assert on
line 38 however evaluates `coordinates < parameter_shape`, comparing the
integer with the shape *tuple*; on Python 3 (the CI pins 3.7-3.9) this
raises `TypeError`, so construction with an integer coordinate fails for
every shape with `sum > 1`: without coordinates it fails with
`AssertionError` (as claimed), with `coordinates=5` it fails (as claimed,
though with `TypeError`, not a bounds failure), and with `coordinates=1` it
also fails even though the claim requires success. -/
theorem C3_coordinate_check_raises :
    ProjectionParameterFunctional.init "x" (.tup [3]) Option.none Option.none
        = .error .assertionError
    ∧ ProjectionParameterFunctional.init "x" (.tup [3]) (some 5) Option.none
        = .error .typeError
    ∧ ProjectionParameterFunctional.init "x" (.tup [3]) (some 1) Option.none
        = .error .typeError :=
  ⟨rfl, rfl, rfl⟩

/-- Claim C1 — code bug.  The claim (and the security contract of spec
section 4.4) states that the evaluation namespace holds only the whitelist
plus the parameter bindings, never general builtins, so an expression
referencing an unlisted function fails and is never executed.  The code
passes `self.functions` as the globals of `eval` without a `"__builtins__"`
entry, so CPython injects the builtins module into that dict before
evaluating; every builtin is therefore reachable.  `abs` is not in the
whitelist, yet `abs(0 - 3)` constructs fine and evaluates to `3` — the
unlisted function executes instead of failing.  (The specific example
`os.system(...)` does fail with a `NameError`, because the bare name `os`
is not bound — but the universal claim is still false.) -/
theorem C1_builtins_reachable :
    functions.lookup "abs" = Option.none
    ∧ (ExpressionParameterFunctional.init "abs(0 - 3)" [] Option.none).bind
        (fun f => f.evaluate (some []) functions)
        = .ok (.int 3, injectBuiltins functions)
    ∧ (ExpressionParameterFunctional.init "os.system(0)" [] Option.none).bind
        (fun f => f.evaluate (some []) functions)
        = .error (.nameError "os") :=
  ⟨rfl, rfl, rfl⟩

/-- Claim C4 — counterexample.  The claim says that for a declared shape of
total element count at most 1 the `coordinates` argument is ignored, i.e.
`evaluate` behaves as if it had not been supplied.  On the code,
`self.coordinates` is stored unconditionally (line 39) and `evaluate`
indexes with it whenever it is not `None` (lines 44-47): for shape `(1,)`
with `coordinates=0` and value `{x: [7]}`, `evaluate` returns the element
`7`, while without coordinates it returns the array `[7]`.  Moreover the
guard uses `sum(parameter_shape)`, not the element count, so shape `(1, 1)`
(element count 1) already requires coordinates at construction. -/
theorem C4_coordinates_not_ignored :
    (ProjectionParameterFunctional.init "x" (.num 1) (some 0) Option.none).map
        (fun f => f.evaluate (some [("x", .arr [.int 7])]))
        = .ok (.ok (.int 7))
    ∧ (ProjectionParameterFunctional.init "x" (.num 1) Option.none
          Option.none).map
        (fun f => f.evaluate (some [("x", .arr [.int 7])]))
        = .ok (.ok (.arr [.int 7]))
    ∧ (ProjectionParameterFunctional.init "x" (.num 1) (some 0) Option.none).map
        (fun f => f.evaluate (some [("x", .arr [.int 7])]))
      ≠ (ProjectionParameterFunctional.init "x" (.num 1) Option.none
          Option.none).map
        (fun f => f.evaluate (some [("x", .arr [.int 7])]))
    ∧ ProjectionParameterFunctional.init "x" (.tup [1, 1]) Option.none
        Option.none = .error .assertionError := by
  refine ⟨rfl, rfl, ?_, rfl⟩
  intro h
  have h' : (Except.ok (Except.ok (Value.int 7)) :
      Except PyErr (Except PyErr Value))
      = Except.ok (Except.ok (Value.arr [Value.int 7])) := h
  injection h' with h1
  injection h1 with h2
  exact Value.noConfusion h2

/-- Claim C4 — amended.  When the component sum of the declared shape is at
most 1, `coordinates` is optional: construction succeeds with or without
it, storing whatever was supplied; a supplied coordinate is *used* by
`evaluate`, which then returns `value[name][coordinates]` instead of
behaving as if no coordinate had been given. -/
theorem C4_coordinates_optional_but_used (nm : String) (shape : ShapeArg)
    (copt : Option Int) (n : Option String)
    (h : (normalizeShape shape).sum ≤ 1) :
    ProjectionParameterFunctional.init nm shape copt n
        = .ok { name := n
                parameter_type := [(nm, normalizeShape shape)]
                parameter_name := nm
                coordinates := copt }
    ∧ ∀ (v : ParameterValue) (x : Value),
        parseParameter [(nm, normalizeShape shape)] (some v) = .ok v →
        v.lookup nm = some x →
        ProjectionParameterFunctional.evaluate
          { name := n
            parameter_type := [(nm, normalizeShape shape)]
            parameter_name := nm
            coordinates := copt } (some v)
        = (match copt with
           | Option.none => .ok x
           | some i => pyGetItem x i) := by
  constructor
  · unfold ProjectionParameterFunctional.init
    have h' : ¬ (normalizeShape shape).sum > 1 := by omega
    simp [h']
  · intro v x hparse hlook
    unfold ProjectionParameterFunctional.evaluate
    rw [hparse]
    simp only [hlook]

/-- Claim C5 — confirmed.  For every successfully constructed
ProjectionFunctional and every parameter value `v` that validates
unchanged against its declared type (`parse_parameter` returns `v` itself —
see `parseParameter_ok_id`, so no copy and no mutation of `v` is involved),
`evaluate` returns exactly `v[parameter_name]` when `coordinates` is unset
and otherwise performs exactly the Python indexing
`v[parameter_name][coordinates]`.  The embedding is a pure function, so the
result is deterministic and `v` is never mutated. -/
theorem C5_projection_evaluate (nm : String) (shape : ShapeArg)
    (copt : Option Int) (n : Option String)
    (f : ProjectionParameterFunctional)
    (hf : ProjectionParameterFunctional.init nm shape copt n = .ok f)
    (v : ParameterValue)
    (hv : parseParameter f.parameter_type (some v) = .ok v) :
    ∃ x, v.lookup f.parameter_name = some x
      ∧ f.evaluate (some v)
          = (match f.coordinates with
             | Option.none => .ok x
             | some c => pyGetItem x c) := by
  unfold ProjectionParameterFunctional.init at hf
  split at hf
  · split at hf <;> exact absurd hf (by simp)
  · injection hf with hf'
    subst hf'
    cases hl : v.lookup nm with
    | none => simp [parseParameter, List.find?, hl] at hv
    | some x =>
        refine ⟨x, rfl, ?_⟩
        unfold ProjectionParameterFunctional.evaluate
        rw [hv]
        simp only [hl]

/-- Claim C6 — confirmed.  `GenericParameterFunctional.evaluate` first
validates the value against the declared parameter type and then returns
`mapping(validated_value)`.  A validation failure surfaces before the
mapping runs (the result is the same for every mapping), and whatever error
the mapping produces propagates unmodified — the functional is a
transparent validating shell.  The `parse_parameter` validation itself is
modelled from the spec (section 4.1), since the base class is not among the
source files. -/
theorem C6_generic_transparent
    (mapping : ParameterValue → Except PyErr Value)
    (pt : List (String × ShapeArg)) (n : Option String)
    (mu : Option ParameterValue) :
    (∀ e, parseParameter (normalizeParameterType pt) mu = .error e →
        (GenericParameterFunctional.init mapping pt n).evaluate mu
          = .error e)
    ∧ (∀ m, parseParameter (normalizeParameterType pt) mu = .ok m →
        (GenericParameterFunctional.init mapping pt n).evaluate mu
          = mapping m)
    ∧ ∀ (mapping' : ParameterValue → Except PyErr Value) e,
        parseParameter (normalizeParameterType pt) mu = .error e →
        (GenericParameterFunctional.init mapping pt n).evaluate mu
          = (GenericParameterFunctional.init mapping' pt n).evaluate mu := by
  refine ⟨fun e he => ?_, fun m hm => ?_, fun mapping' e he => ?_⟩
  · unfold GenericParameterFunctional.evaluate GenericParameterFunctional.init
    rw [he]
  · unfold GenericParameterFunctional.evaluate GenericParameterFunctional.init
    rw [hm]
  · unfold GenericParameterFunctional.evaluate GenericParameterFunctional.init
    rw [he]

/-- Claim C7 — confirmed.  `__init__` compiles the expression string before
anything else; a syntax error therefore propagates out of the constructor
(no functional is produced, so the failure cannot be deferred to
`evaluate`), and conversely every constructed functional carries a
successfully compiled form of its expression string. -/
theorem C7_syntax_error_fails_construction :
    (∀ (e : String) (pt : List (String × ShapeArg)) (n : Option String)
        (err : PyErr),
        pyCompile e = .error err →
        ExpressionParameterFunctional.init e pt n = .error err)
    ∧ ∀ (e : String) (pt : List (String × ShapeArg)) (n : Option String)
        (f : ExpressionParameterFunctional),
        ExpressionParameterFunctional.init e pt n = .ok f →
        pyCompile e = .ok f.code := by
  constructor
  · intro e pt n err hc
    unfold ExpressionParameterFunctional.init
    rw [hc]
  · intro e pt n f hf
    unfold ExpressionParameterFunctional.init at hf
    cases hc : pyCompile e with
    | error err => rw [hc] at hf; exact absurd hf (by simp)
    | ok code =>
        rw [hc] at hf
        injection hf with hf'
        rw [← hf']

/-- Claim C2 — confirmed.  `__getstate__` persists exactly
`(expression, parameter_type, name)`, and `__setstate__` re-runs the full
constructor on that tuple; the restored functional equals the original, so
`evaluate` agrees on every input.  In particular the claimed concrete
round trip holds: for `"2*x"` over `{x: 0}` named `"f"`, both the original
and the restored functional evaluate `{x: 5}` to `10`.  (The parameter-type
normalization performed by `build_parameter_type` is modelled from the
spec, the base class being outside the source files.) -/
theorem C2_roundtrip :
    (∀ (e : String) (pt : List (String × ShapeArg)) (n : Option String)
        (f : ExpressionParameterFunctional),
        ExpressionParameterFunctional.init e pt n = .ok f →
        ExpressionParameterFunctional.setstate
            (ExpressionParameterFunctional.getstate f) = .ok f)
    ∧ (ExpressionParameterFunctional.init "2*x" [("x", .num 0)]
          (some "f")).bind
        (fun f => f.evaluate (some [("x", .int 5)]) functions)
        = .ok (.int 10, injectBuiltins functions)
    ∧ (ExpressionParameterFunctional.init "2*x" [("x", .num 0)]
          (some "f")).bind
        (fun f => (ExpressionParameterFunctional.setstate
            (ExpressionParameterFunctional.getstate f)).bind
          (fun f' => f'.evaluate (some [("x", .int 5)]) functions))
        = .ok (.int 10, injectBuiltins functions) := by
  refine ⟨?_, rfl, rfl⟩
  intro e pt n f hf
  unfold ExpressionParameterFunctional.init at hf
  cases hc : pyCompile e with
  | error err => rw [hc] at hf; exact absurd hf (by simp)
  | ok code =>
      rw [hc] at hf
      injection hf with hf'
      subst hf'
      unfold ExpressionParameterFunctional.setstate
        ExpressionParameterFunctional.getstate
        ExpressionParameterFunctional.init
      rw [hc]
      simp [normalizeParameterType_tup]

/-- Claim C8 — confirmed.  During evaluation the validated parameter is the
`locals` mapping of `eval` while the whitelist dict is the `globals`
mapping, and Python resolves a name in locals first; a parameter whose name
collides with a whitelisted function (or with anything else in globals)
therefore shadows it, and the expression sees the bound parameter value. -/
theorem C8_parameter_shadows_function
    (f : ExpressionParameterFunctional) (nm : String)
    (mu : Option ParameterValue) (m : ParameterValue) (v : Value) (fns : NS)
    (hcode : f.code = .name nm)
    (hparse : parseParameter f.parameter_type mu = .ok m)
    (hlook : m.lookup nm = some v) :
    f.evaluate mu fns = .ok (v, injectBuiltins fns) := by
  unfold ExpressionParameterFunctional.evaluate
  rw [hparse, hcode]
  unfold pyEval
  simp [evalExpr, lookupName, hlook]

/-- Claim C9 — code bug.  The claim (and spec section 5) states that no
shared mutable resource exists between functional instances.  But
`functions` is a single class-level dict shared by every
`ExpressionParameterFunctional`, and through the builtins hole of C1 an
expression can reach `globals()` — which is exactly that shared dict — and
mutate it.  Concretely: a victim functional for `"sin(0)"` evaluates fine;
an attacker functional evaluating `"globals().clear()"` empties the shared
dict; the victim then fails with `NameError` on `sin`.  An operation on one
instance changed the behavior observable through another. -/
theorem C9_shared_functions_dict_mutable :
    (ExpressionParameterFunctional.init "sin(0)" [] Option.none).bind
        (fun f => f.evaluate (some []) functions)
        = .ok (.npApp "sin" [.int 0], injectBuiltins functions)
    ∧ (ExpressionParameterFunctional.init "globals().clear()" []
          Option.none).bind
        (fun f => f.evaluate (some []) functions)
        = .ok (.pyNone, [])
    ∧ (ExpressionParameterFunctional.init "sin(0)" [] Option.none).bind
        (fun f => f.evaluate (some []) ([] : NS))
        = .error (.nameError "sin")
    ∧ (ExpressionParameterFunctional.init "sin(0)" [] Option.none).bind
        (fun f => f.evaluate (some []) functions)
      ≠ (ExpressionParameterFunctional.init "sin(0)" [] Option.none).bind
        (fun f => f.evaluate (some []) ([] : NS)) := by
  refine ⟨rfl, rfl, rfl, ?_⟩
  intro h
  have h' : (Except.ok (Value.npApp "sin" [Value.int 0],
      injectBuiltins functions) : Except PyErr (Value × NS))
      = Except.error (PyErr.nameError "sin") := h
  exact Except.noConfusion h'

/-- Claim C10 — counterexample.  The claim says `load_matrix` on a
MatrixMarket path fails whenever a key argument is given.  The guard is
`if key:`, a Python truthiness test, so the empty-string key — an argument
that was given — is treated as no key at all and the call succeeds. -/
theorem C10_empty_key_not_rejected :
    load_matrix fsC10 "m.mtx" (some "") = .ok (.dense 0)
    ∧ ¬ ∃ e, load_matrix fsC10 "m.mtx" (some "") = .error e := by
  refine ⟨rfl, ?_⟩
  rintro ⟨e, he⟩
  have h' : (Except.ok (MatrixData.dense 0) : Except PyErr MatrixData)
      = Except.error e := he
  exact Except.noConfusion h'

/-- Claim C10 — amended.  For every path whose detected extension is
MatrixMarket or text, `load_matrix` fails with a hard `IOError` whenever a
truthy (non-empty) key is given, whatever the file contains; an
empty-string key is falsy and treated as if no key had been supplied.  For
a path detected as NPZ, `load_matrix` with a truthy key returns exactly the
entry stored under that key and fails with a descriptive I/O error when the
key is absent. -/
theorem C10_key_amended (fs : FS) (path : String) (k : String)
    (hk : k ≠ "") :
    ((detectExtension path = .ok (some ".mtx")
        ∨ detectExtension path = .ok (some ".mtz.gz")) →
      load_matrix fs path (some k)
        = .error (.ioError "Cannot specify key for Matrix Market file"))
    ∧ (detectExtension path = .ok (some ".txt") →
      load_matrix fs path (some k)
        = .error (.ioError "Cannot specify key for TXT file"))
    ∧ ∀ entries, detectExtension path = .ok (some ".npz") →
        fs path = some (.npzFile entries) →
        ((∀ m, entries.lookup k = some m →
            load_matrix fs path (some k) = .ok m)
         ∧ (entries.lookup k = Option.none →
            load_matrix fs path (some k)
              = .error (.ioError (k ++ " not found in NPY file " ++ path)))) := by
  have hkt : keyTruthy (some k) = true := by
    cases hb : k.isEmpty with
    | false => simp [keyTruthy, hb]
    | true => exact absurd ((String.isEmpty_iff k).mp hb) hk
  refine ⟨fun hdet => ?_, fun hdet => ?_, fun entries hdet hfs => ?_⟩
  · unfold load_matrix
    cases hdet with
    | inl h => rw [h]; simp [mmreadFn, hkt]
    | inr h => rw [h]; simp [mmreadFn, hkt]
  · unfold load_matrix
    rw [hdet]
    simp [loadtxtFn, hkt]
  · constructor
    · intro m hm
      unfold load_matrix
      rw [hdet]
      simp [loadFn, hfs, hkt, hm]
    · intro hm
      unfold load_matrix
      rw [hdet]
      simp [loadFn, hfs, hkt, hm]

/-! ### Witnesses -/

/-- Witness for C2: the concrete functional built from `"2*x"` over
`{x: 0}` named `"f"` restores to itself. -/
theorem C2_roundtrip_witness :
    ExpressionParameterFunctional.setstate
        (ExpressionParameterFunctional.getstate
          ⟨"2*x", .binop .mul (.intLit 2) (.name "x"), [("x", [])],
            some "f"⟩)
      = .ok ⟨"2*x", .binop .mul (.intLit 2) (.name "x"), [("x", [])],
            some "f"⟩ :=
  C2_roundtrip.1 "2*x" [("x", ShapeArg.num 0)] (some "f") _ rfl

/-- Witness for C4 (amended): shape `(1,)` with `coordinates=0` constructs
and `evaluate` indexes with the stored coordinate. -/
theorem C4_coordinates_optional_but_used_witness :
    ProjectionParameterFunctional.init "x" (.num 1) (some 0) Option.none
        = .ok ⟨Option.none, [("x", [1])], "x", some 0⟩
    ∧ ProjectionParameterFunctional.evaluate
        ⟨Option.none, [("x", [1])], "x", some 0⟩
        (some [("x", .arr [.int 7])])
        = pyGetItem (.arr [.int 7]) 0 := by
  have h := C4_coordinates_optional_but_used "x" (.num 1) (some 0)
    Option.none (by decide)
  exact ⟨h.1, h.2 [("x", .arr [.int 7])] (.arr [.int 7]) rfl rfl⟩

/-- Witness for C5: a scalar projection functional returns the bound value
itself. -/
theorem C5_projection_evaluate_witness :
    ∃ x, List.lookup "p" ([("p", Value.int 4)] : ParameterValue) = some x
      ∧ ProjectionParameterFunctional.evaluate
          ⟨Option.none, [("p", [])], "p", Option.none⟩
          (some [("p", Value.int 4)])
          = .ok x :=
  C5_projection_evaluate "p" (.num 0) Option.none Option.none
    ⟨Option.none, [("p", [])], "p", Option.none⟩ rfl
    [("p", Value.int 4)] rfl

/-- Witness for C6: evaluating over `{y: 1}` a generic functional declared
over `{x: ()}` fails with the TypeMismatch naming `x`, before the mapping
runs. -/
theorem C6_generic_transparent_witness :
    (GenericParameterFunctional.init (fun _ => .ok (.int 0))
        [("x", ShapeArg.num 0)] Option.none).evaluate
        (some [("y", Value.int 1)])
      = .error (.typeMismatch "x") :=
  (C6_generic_transparent (fun _ => .ok (.int 0)) [("x", ShapeArg.num 0)]
    Option.none (some [("y", Value.int 1)])).1 (.typeMismatch "x") rfl

/-- Witness for C7: the syntactically invalid string `"2*"` fails
compilation and therefore construction, with the same error. -/
theorem C7_syntax_error_fails_construction_witness :
    pyCompile "2*" = .error .compileError
    ∧ ExpressionParameterFunctional.init "2*" [] Option.none
        = .error .compileError :=
  ⟨rfl, C7_syntax_error_fails_construction.1 "2*" [] Option.none
    .compileError rfl⟩

/-- Witness for C8: a parameter literally named `sin`, bound to `5`,
shadows the whitelisted `sin` function. -/
theorem C8_parameter_shadows_function_witness :
    ExpressionParameterFunctional.evaluate
        ⟨"sin", .name "sin", [("sin", [])], some "g"⟩
        (some [("sin", Value.int 5)]) functions
      = .ok (.int 5, injectBuiltins functions) :=
  C8_parameter_shadows_function
    ⟨"sin", .name "sin", [("sin", [])], some "g"⟩ "sin"
    (some [("sin", Value.int 5)]) [("sin", Value.int 5)] (Value.int 5)
    functions rfl rfl rfl

/-- Witness for C10 (amended): concrete dispatches on the file system
`fsC10` — truthy keys are rejected for `.mtx` and `.txt`, and an NPZ key
selects its entry or fails descriptively. -/
theorem C10_key_amended_witness :
    load_matrix fsC10 "m.mtx" (some "k")
        = .error (.ioError "Cannot specify key for Matrix Market file")
    ∧ load_matrix fsC10 "m.txt" (some "k")
        = .error (.ioError "Cannot specify key for TXT file")
    ∧ load_matrix fsC10 "m.npz" (some "A") = .ok (.dense 1)
    ∧ load_matrix fsC10 "m.npz" (some "B")
        = .error (.ioError ("B" ++ " not found in NPY file " ++ "m.npz")) := by
  refine ⟨(C10_key_amended fsC10 "m.mtx" "k" (by decide)).1 (Or.inl rfl),
    (C10_key_amended fsC10 "m.txt" "k" (by decide)).2.1 rfl,
    ((C10_key_amended fsC10 "m.npz" "A" (by decide)).2.2
      [("A", .dense 1)] rfl rfl).1 (.dense 1) rfl,
    ((C10_key_amended fsC10 "m.npz" "B" (by decide)).2.2
      [("A", .dense 1)] rfl rfl).2 rfl⟩

end Pymor
